import Mathlib

/-!
Shallow embedding of the Slimm / VoltVriend energy-comparison app
(TypeScript sources: `src/services/geminiService.ts`, `src/App.tsx`,
`src/components/Dashboard.tsx` (Dashboard + BillVerification),
`src/api/stripe-webhook.ts`, `src/types.ts`).

Numbers are modelled as rationals (`ℚ`); JavaScript `undefined` is `Option`;
a rejected promise / thrown exception is `Except.error`.  External oracle
calls (Gemini) are modelled by passing the oracle's reply as a parameter:
the reply is classified by how `JSON.parse(response.text || '\x7b\x7d')`
behaves on it (absent/empty text parses the empty-object literal and
succeeds with an all-undefined object; malformed text throws; otherwise a
parsed value of the operation's schema shape is produced).
-/

/-- `ContractType` from `src/types.ts`. -/
inductive ContractType where
  | fixed
  | flexible
  | dynamic
  | unknown
deriving DecidableEq, Repr

/-- `SubscriptionStatus`: `free | premium` (profile column `subscription_status`). -/
inductive SubscriptionStatus where
  | free
  | premium
deriving DecidableEq, Repr

/-- JavaScript `a || b` for an optional number: `0` (and `undefined`) are falsy. -/
def jsOrQ (a : Option ℚ) (b : Option ℚ) : Option ℚ :=
  match a with
  | some v => if v = 0 then b else some v
  | none => b

/-- JavaScript `a || d` for an optional string defaulted to a string:
the empty string (and `undefined`) are falsy. -/
def jsOrStr (a : Option String) (d : String) : String :=
  match a with
  | some s => if s = "" then d else s
  | none => d

/-- JavaScript `a || undefined` for an optional string: `""` becomes `undefined`. -/
def jsStrTruthy (a : Option String) : Option String :=
  match a with
  | some s => if s = "" then none else some s
  | none => none

/-- JavaScript `x ? y : undefined` for an optional number scrutinee
(`0` is falsy), applied to a function of the value. -/
def jsIfTruthyQ (a : Option ℚ) (f : ℚ → Option ℚ) : Option ℚ :=
  match a with
  | some v => if v = 0 then none else f v
  | none => none

/-- How an oracle (Gemini `generateContent`) interaction turns out, classified
by the behaviour of the subsequent `JSON.parse(response.text || '\x7b\x7d')`:

* `noText`   — the call resolved but `response.text` is `undefined` or `""`;
  the code then parses the empty-object literal, which succeeds and yields an
  object with every field `undefined`;
* `malformed` — the call resolved with non-empty text that is not valid JSON;
  `JSON.parse` throws and the surrounding `async` function rejects;
* `callError` — `generateContent` itself rejected; the rejection propagates;
* `parsed v` — the call resolved with valid JSON parsing to `v` (fields the
  schema requests, each possibly absent). -/
inductive OracleReply (α : Type) where
  | noText
  | malformed
  | callError
  | parsed (v : α)
deriving DecidableEq

/-- The error channel of the embedded `async` functions. -/
inductive JsError where
  | parseError
  | callFailed
deriving DecidableEq, Repr

/-- `JSON.parse(response.text || '\x7b\x7d')`: given the all-`undefined`
"empty object" of the schema type, produce the parsed object or throw. -/
def jsonParseStep {α : Type} (emptyObj : α) : OracleReply α → Except JsError α
  | .noText => .ok emptyObj
  | .malformed => .error .parseError
  | .callError => .error .callFailed
  | .parsed v => .ok v

/-- Behavioural flags of `UserProfile.behaviors` (`src/types.ts`). -/
structure Behaviors where
  workFromHome : Bool
  heatPump : Bool
  districtHeating : Bool
  solarPanels : Bool
deriving DecidableEq, Repr

/-- `MarketProvider` (`src/types.ts`): an offer retained in the result.
`name`/`perKwhRate` are `Option` because the mapping in
`compareMarketPrices` copies possibly-absent JSON fields, and the
zero-offer sentinel `\x7b name: '', perKwhRate: 0, contractType: 'fixed' \x7d`
carries no `welkomsbonus` property at all (hence `Option ℚ`). -/
structure MarketProvider where
  name : Option String
  perKwhRate : Option ℚ
  contractType : String
  welkomsbonus : Option ℚ
deriving DecidableEq, Repr

/-- Result recommendation: `'SWITCH' | 'STAY'` (`PriceCheckResult` in `src/types.ts`). -/
inductive Rec where
  | SWITCH
  | STAY
deriving DecidableEq, Repr

/-- `PriceCheckResult` (`src/types.ts`). -/
structure PriceCheckResult where
  checkedAt : String
  userKwhRate : ℚ
  userKwhPerMonth : ℚ
  top2 : List MarketProvider
  cheapestOverall : MarketProvider
  recommendation : Rec
  monthlySavings : ℚ
  reasoning : String
deriving DecidableEq, Repr

/-- `UserProfile` (`src/types.ts`), restricted to the fields the embedded
operations read or write. -/
structure UserProfile where
  email : String
  zipcode : String
  houseNumber : String
  householdSize : String
  houseType : String
  currentProvider : String
  currentContractType : ContractType
  monthlyCost : ℚ
  behaviors : Behaviors
  estimatedKwhPerMonth : Option ℚ
  estimatedPerKwhRate : Option ℚ
  isVerified : Bool
  verifiedKwhPerMonth : Option ℚ
  verifiedPerKwhRate : Option ℚ
  verifiedProvider : Option String
  verifiedContractType : Option ContractType
  subscriptionStatus : SubscriptionStatus
  lastPriceCheck : Option PriceCheckResult
deriving DecidableEq, Repr

/-- A row of the Supabase `profiles` table (the columns read by
`fetchProfile` in `src/App.tsx` and written by the mutating handlers). -/
structure DbRow where
  email : String
  zipcode : String
  house_number : String
  household_size : String
  house_type : String
  current_provider : String
  current_contract_type : ContractType
  monthly_cost : ℚ
  work_from_home : Bool
  heat_pump : Bool
  district_heating : Bool
  solar_panels : Bool
  is_verified : Bool
  estimated_kwh_per_month : Option ℚ
  estimated_per_kwh_rate : Option ℚ
  subscription_status : Option SubscriptionStatus
  last_price_check_at : Option String
  last_price_check_result : Option PriceCheckResult
deriving DecidableEq, Repr

/-- `fetchProfile`'s row-to-profile mapping (`src/App.tsx`, the
`mappedProfile` object).  Note that it populates `estimatedKwhPerMonth` /
`estimatedPerKwhRate` from the DB columns and leaves every `verified*`
field absent: the mapping literal contains no `verified*` key. -/
def mapDbRow (data : DbRow) : UserProfile :=
  { email := data.email
    zipcode := data.zipcode
    houseNumber := data.house_number
    householdSize := data.household_size
    houseType := data.house_type
    currentProvider := data.current_provider
    currentContractType := data.current_contract_type
    monthlyCost := data.monthly_cost
    behaviors :=
      { workFromHome := data.work_from_home
        heatPump := data.heat_pump
        districtHeating := data.district_heating
        solarPanels := data.solar_panels }
    isVerified := data.is_verified
    estimatedKwhPerMonth := data.estimated_kwh_per_month
    estimatedPerKwhRate := data.estimated_per_kwh_rate
    verifiedKwhPerMonth := none
    verifiedPerKwhRate := none
    verifiedProvider := none
    verifiedContractType := none
    subscriptionStatus := data.subscription_status.getD .free
    lastPriceCheck := data.last_price_check_result }

/-! ### `src/services/geminiService.ts` — the three oracle-facing operations -/

/-- The JSON schema of the estimator's oracle reply (`estimateKwhUsage`'s
`responseSchema`); each field possibly absent in the parsed object. -/
structure EstimateRes where
  estimated_kwh_per_month : Option ℚ
  estimated_per_kwh_rate : Option ℚ
  confidence_level : Option String
  assumptions : Option (List String)
  reasoning : Option String
deriving DecidableEq, Repr

/-- The all-`undefined` parse of the empty-object literal. -/
def EstimateRes.empty : EstimateRes := ⟨none, none, none, none, none⟩

/-- `estimateKwhUsage` (`src/services/geminiService.ts`): builds a prompt from
the profile, calls the oracle, and returns
`JSON.parse(response.text || '\x7b\x7d')` unchanged. -/
def estimateKwhUsage (_profile : UserProfile) (oracle : OracleReply EstimateRes) :
    Except JsError EstimateRes :=
  jsonParseStep EstimateRes.empty oracle

/-- The raw parsed object of the bill extractor's oracle reply
(`extractBillData`'s `responseSchema`). -/
structure RawExtract where
  annual_kwh : Option ℚ
  monthly_kwh : Option ℚ
  annual_cost_eur : Option ℚ
  monthly_cost_eur : Option ℚ
  per_kwh_rate : Option ℚ
  contract_type : Option String
  provider_name : Option String
  extraction_confidence : Option String
  warnings : Option (List String)
deriving DecidableEq, Repr

/-- The all-`undefined` parse of the empty-object literal. -/
def RawExtract.empty : RawExtract :=
  ⟨none, none, none, none, none, none, none, none, none⟩

/-- `BillExtraction` (`src/types.ts`). -/
structure BillExtraction where
  annualKwh : Option ℚ
  monthlyKwh : Option ℚ
  annualCostEur : Option ℚ
  monthlyCostEur : Option ℚ
  perKwhRate : Option ℚ
  contractType : String
  providerName : Option String
  confidence : String
  warnings : List String
deriving DecidableEq, Repr

/-- `extractBillData` (`src/services/geminiService.ts`): parse the oracle
reply, then map snake_case fields to the `BillExtraction` shape with the
source's defaults (`contract_type || 'unknown'`,
`extraction_confidence || 'low'`, `warnings || []`). -/
def extractBillData (oracle : OracleReply RawExtract) : Except JsError BillExtraction :=
  match jsonParseStep RawExtract.empty oracle with
  | .error e => .error e
  | .ok raw =>
    .ok { annualKwh := raw.annual_kwh
          monthlyKwh := raw.monthly_kwh
          annualCostEur := raw.annual_cost_eur
          monthlyCostEur := raw.monthly_cost_eur
          perKwhRate := raw.per_kwh_rate
          contractType := jsOrStr raw.contract_type "unknown"
          providerName := raw.provider_name
          confidence := jsOrStr raw.extraction_confidence "low"
          warnings := raw.warnings.getD [] }

/-- The static fallback market snapshot used when the grounded search throws
(`compareMarketPrices`, catch branch of step 1). -/
def fallbackMarketContext : String :=
  String.intercalate "\n"
    [ "Huidige Nederlandse elektriciteitsprijzen (marktschatting):"
    , "- Frank Energie: €0.27/kWh variabel, geen welkomsbonus"
    , "- Tibber: €0.26/kWh dynamisch/variabel, geen welkomsbonus"
    , "- Greenchoice: €0.32/kWh vast, welkomsbonus €75"
    , "- Budget Energie: €0.31/kWh vast, welkomsbonus €50"
    , "- Vattenfall: €0.34/kWh vast, welkomsbonus €100"
    , "- Essent: €0.35/kWh vast, welkomsbonus €100"
    , "- Eneco: €0.36/kWh vast, geen welkomsbonus"
    , "- Engie: €0.33/kWh vast, welkomsbonus €60" ]

/-- The switching-cost rule text injected into the prompt when the user has a
fixed contract (`switchingCostRule`, first alternative). -/
def fixedSwitchingCostRule : String :=
  String.intercalate "\n"
    [ "De gebruiker heeft een VAST contract. Overstapkosten kunnen van toepassing zijn."
    , "Formule: (resterend verbruik tot contracteinde) × (huidig tarief - nieuw vergelijkbaar tarief)."
    , "Gebruik een conservatieve schatting van €75 totale overstapkosten gespreid over 12 maanden (€6,25/maand) tenzij je betere data hebt." ]

/-- The no-switching-cost rule text injected into the prompt otherwise
(`switchingCostRule`, second alternative). -/
def noSwitchingCostRule : String :=
  "De gebruiker heeft een VARIABEL of DYNAMISCH contract. Er zijn GEEN overstapkosten (maximale opzegtermijn 30 dagen). Houd hier GEEN rekening mee in de berekening."

/-- The data slots interpolated into the analysis prompt of
`compareMarketPrices` (step 2): the market context, the user figures chosen
on lines 265–266, the contract data, and the selected switching-cost rule. -/
structure ComparePrompt where
  marketContext : String
  currentProvider : String
  userRate : Option ℚ
  userKwh : Option ℚ
  contractType : ContractType
  switchingCostRule : String
deriving DecidableEq

/-- The prompt data `compareMarketPrices` assembles before the analysis call:

* `userRate`/`userKwh` — `profile.isVerified ? profile.verified… : profile.estimated…`;
* `hasSwitchingCosts` — `profile.currentContractType === 'fixed'`, a local rule;
* `marketContext` — the grounded-search text (`searchResponse.text || ''`) or,
  when the search throws, the static `fallbackMarketContext`. -/
def comparePromptData (profile : UserProfile)
    (liveSearch : Except Unit (Option String)) : ComparePrompt :=
  { marketContext :=
      match liveSearch with
      | .ok t => t.getD ""
      | .error _ => fallbackMarketContext
    currentProvider := profile.currentProvider
    userRate := if profile.isVerified then profile.verifiedPerKwhRate else profile.estimatedPerKwhRate
    userKwh := if profile.isVerified then profile.verifiedKwhPerMonth else profile.estimatedKwhPerMonth
    contractType := profile.currentContractType
    switchingCostRule :=
      if profile.currentContractType = ContractType.fixed
      then fixedSwitchingCostRule else noSwitchingCostRule }

/-- One entry of the analysis reply's `top2_providers` array. -/
structure ProviderRaw where
  name : Option String
  per_kwh_rate : Option ℚ
  contract_type : Option String
  welkomsbonus : Option ℚ
deriving DecidableEq, Repr

/-- The parsed analysis reply of `compareMarketPrices`. -/
structure CompareRes where
  top2_providers : Option (List ProviderRaw)
  monthly_savings : Option ℚ
  recommendation : Option String
  reasoning : Option String
deriving DecidableEq, Repr

/-- The all-`undefined` parse of the empty-object literal. -/
def CompareRes.empty : CompareRes := ⟨none, none, none, none⟩

/-- The per-offer mapping in `compareMarketPrices` (lines 366–372): contract
types `variabel`/`variable`/`dynamisch` normalise to `variable`, anything
else to `fixed`; `welkomsbonus || 0` always yields a present number. -/
def mapProvider (p : ProviderRaw) : MarketProvider :=
  { name := p.name
    perKwhRate := p.per_kwh_rate
    contractType :=
      if p.contract_type = some "variabel" ∨ p.contract_type = some "variable" ∨
         p.contract_type = some "dynamisch"
      then "variable" else "fixed"
    welkomsbonus := some (p.welkomsbonus.getD 0) }

/-- The zero-offer sentinel `top2[0] ?? \x7b name: '', perKwhRate: 0,
contractType: 'fixed' \x7d` (line 379); it carries no `welkomsbonus`
property. -/
def MarketProvider.emptySentinel : MarketProvider :=
  { name := some ""
    perKwhRate := some 0
    contractType := "fixed"
    welkomsbonus := none }

/-- `compareMarketPrices` (`src/services/geminiService.ts`, lines 263–384).
`now` stands for `new Date().toISOString()`; `liveSearch` is the outcome of
the grounded-search call (`.error` = the call threw); `oracle` is the
analysis call, fed the assembled prompt.  After
`JSON.parse(response.text || '\x7b\x7d')` the result object is built with
the source's defaults: `userRate || 0`, `userKwh || 0`,
`top2[0] ?? sentinel`, `recommendation === 'SWITCH' ? 'SWITCH' : 'STAY'`,
`monthly_savings || 0`, `reasoning || ''`. -/
def compareMarketPrices (now : String) (profile : UserProfile)
    (liveSearch : Except Unit (Option String))
    (oracle : ComparePrompt → OracleReply CompareRes) :
    Except JsError PriceCheckResult :=
  match jsonParseStep CompareRes.empty (oracle (comparePromptData profile liveSearch)) with
  | .error e => .error e
  | .ok res =>
    .ok { checkedAt := now
          userKwhRate := (comparePromptData profile liveSearch).userRate.getD 0
          userKwhPerMonth := (comparePromptData profile liveSearch).userKwh.getD 0
          top2 := ((res.top2_providers.getD []).take 2).map mapProvider
          cheapestOverall :=
            (((res.top2_providers.getD []).take 2).map mapProvider).headD
              MarketProvider.emptySentinel
          recommendation := if res.recommendation = some "SWITCH" then .SWITCH else .STAY
          monthlySavings := res.monthly_savings.getD 0
          reasoning := jsOrStr res.reasoning "" }

/-! ### `src/components/Dashboard.tsx` (BillVerification) and `src/App.tsx` -/

/-- The partial profile update passed to `onVerified` →
`handleVerificationUpdate`; each field may be absent (`Partial<UserProfile>`). -/
structure VerificationUpdate where
  isVerified : Option Bool
  verifiedKwhPerMonth : Option ℚ
  verifiedPerKwhRate : Option ℚ
  verifiedProvider : Option String
  verifiedContractType : Option String
deriving DecidableEq, Repr

/-- `confirm` (BillVerification, `src/components/Dashboard.tsx` lines
202–211): the explicit user confirmation after a successful extraction.
`extracted.monthlyKwh || (extracted.annualKwh ? extracted.annualKwh / 12 :
undefined)`, `extracted.perKwhRate || undefined`,
`extracted.providerName || undefined` (JS falsiness on `0` and `""`). -/
def confirm (extracted : BillExtraction) : VerificationUpdate :=
  { isVerified := some true
    verifiedKwhPerMonth :=
      jsOrQ extracted.monthlyKwh (jsIfTruthyQ extracted.annualKwh (fun a => some (a / 12)))
    verifiedPerKwhRate := jsOrQ extracted.perKwhRate none
    verifiedProvider := jsStrTruthy extracted.providerName
    verifiedContractType := some extracted.contractType }

/-- The `dbUpdate` built by `handleVerificationUpdate` (`src/App.tsx` lines
186–190), applied to the profile row.  Each `if (update.x !== undefined)`
guard keeps the column unchanged when the field is absent.  The verified
figures are written into the `estimated_*` columns, the verified provider
into `current_provider`; `verifiedContractType` is never written. -/
def applyDbUpdate (row : DbRow) (u : VerificationUpdate) : DbRow :=
  { row with
    is_verified := u.isVerified.getD row.is_verified
    estimated_kwh_per_month :=
      match u.verifiedKwhPerMonth with
      | some v => some v
      | none => row.estimated_kwh_per_month
    estimated_per_kwh_rate :=
      match u.verifiedPerKwhRate with
      | some v => some v
      | none => row.estimated_per_kwh_rate
    current_provider := u.verifiedProvider.getD row.current_provider }

/-! ### `src/api/stripe-webhook.ts` -/

/-- A Stripe event as far as the handler reads it: its `type` and
`session.metadata?.supabase_user_id`. -/
structure StripeEvent where
  type : String
  metadata_supabase_user_id : Option String
deriving DecidableEq, Repr

/-- The webhook request as far as the handler reads it: the HTTP method and
the `stripe-signature` header. -/
structure WebhookReq where
  method : String
  signature : Option String
deriving DecidableEq, Repr

/-- The `profiles` table as the webhook touches it: user id ↦ subscription
status. -/
abbrev ProfilesDb := List (String × SubscriptionStatus)

/-- `update(\x7b subscription_status: 'premium' \x7d).eq('id', uid)`. -/
def setPremium (db : ProfilesDb) (uid : String) : ProfilesDb :=
  db.map (fun e => if e.fst = uid then (e.fst, SubscriptionStatus.premium) else e)

/-- The webhook `handler` (`src/api/stripe-webhook.ts` lines 22–66).
`constructedEvent` is the outcome of
`stripe.webhooks.constructEvent(rawBody, signature, secret)` — `none` means
signature verification threw.  `dbWriteOk` is whether the Supabase update
succeeded.  Returns the HTTP status and the resulting table:

* non-POST → 405, unchanged;
* missing/empty `stripe-signature` header (`if (!signature)`) → 400, unchanged;
* signature verification failure → 400, unchanged;
* event type other than `checkout.session.completed` → 200, unchanged;
* missing/empty `supabase_user_id` (`if (supabaseUserId)`) → 200, unchanged;
* update error → 500, unchanged; otherwise → 200, premium set for that id. -/
def webhookHandler (req : WebhookReq) (constructedEvent : Option StripeEvent)
    (dbWriteOk : Bool) (db : ProfilesDb) : Nat × ProfilesDb :=
  if req.method ≠ "POST" then (405, db)
  else
    match jsStrTruthy req.signature with
    | none => (400, db)
    | some _ =>
      match constructedEvent with
      | none => (400, db)
      | some event =>
        if event.type = "checkout.session.completed" then
          match jsStrTruthy event.metadata_supabase_user_id with
          | some uid => if dbWriteOk then (200, setPremium db uid) else (500, db)
          | none => (200, db)
        else (200, db)

/-- The user id whose status the webhook sets to premium, when every gate of
the handler passes; `none` when the request leaves the table unchanged. -/
def webhookPremiumTarget (req : WebhookReq) (constructedEvent : Option StripeEvent)
    (dbWriteOk : Bool) : Option String :=
  if req.method ≠ "POST" then none
  else
    match jsStrTruthy req.signature with
    | none => none
    | some _ =>
      match constructedEvent with
      | none => none
      | some event =>
        if event.type = "checkout.session.completed" then
          match jsStrTruthy event.metadata_supabase_user_id with
          | some uid => if dbWriteOk then some uid else none
          | none => none
        else none

/-! ### Operation-level state machine over the persisted profile row

The reachable mutations of one user's `profiles` row, per the call sites in
the sources:

* `billVerification` — `handleFile` runs `extractBillData`; only when it
  succeeds does the UI offer the confirm button, and only when the user
  presses it does `confirm` → `onVerified` → `handleVerificationUpdate`
  write the row (`userConfirms` models that button press);
* `priceCheckComplete` — `handlePriceCheckComplete` (`src/App.tsx`) stores
  the latest `PriceCheckResult`;
* `stripeWebhook` — the payment webhook; it touches only
  `subscription_status`, and only for the row whose id it names. -/
inductive CoreOp where
  | billVerification (extractionResult : Except JsError BillExtraction) (userConfirms : Bool)
  | priceCheckComplete (result : PriceCheckResult)
  | stripeWebhook (req : WebhookReq) (constructedEvent : Option StripeEvent) (dbWriteOk : Bool)

/-- The effect of one operation on one user's row (`uid` is the row's id). -/
def stepRow (uid : String) (row : DbRow) : CoreOp → DbRow
  | .billVerification extractionResult userConfirms =>
    match extractionResult, userConfirms with
    | .ok d, true => applyDbUpdate row (confirm d)
    | _, _ => row
  | .priceCheckComplete r =>
    { row with
      last_price_check_at := some r.checkedAt
      last_price_check_result := some r }
  | .stripeWebhook req ev ok =>
    if webhookPremiumTarget req ev ok = some uid then
      { row with subscription_status := some SubscriptionStatus.premium }
    else row

/-! ### Concrete fixtures used by witnesses and counterexamples -/

/-- A profile row as created at signup: unverified, with the AI estimate
(200 kWh/month at rate 35) stored. -/
def sampleRow : DbRow :=
  { email := "jan@voorbeeld.nl"
    zipcode := "1234AB"
    house_number := "1"
    household_size := "2"
    house_type := "apartment"
    current_provider := "Eneco"
    current_contract_type := .flexible
    monthly_cost := 80
    work_from_home := false
    heat_pump := false
    district_heating := false
    solar_panels := false
    is_verified := false
    estimated_kwh_per_month := some 200
    estimated_per_kwh_rate := some 35
    subscription_status := some .free
    last_price_check_at := none
    last_price_check_result := none }

/-- The in-memory profile `fetchProfile` yields for `sampleRow`. -/
def sampleProfile : UserProfile := mapDbRow sampleRow

/-- A successful bill extraction: 250 kWh/month at rate 40 from Essent. -/
def sampleExtraction : BillExtraction :=
  { annualKwh := none
    monthlyKwh := some 250
    annualCostEur := none
    monthlyCostEur := none
    perKwhRate := some 40
    contractType := "fixed"
    providerName := some "Essent"
    confidence := "high"
    warnings := [] }

/-- A well-formed analysis reply offering two cheaper providers. -/
def goodCompareRes : CompareRes :=
  { top2_providers := some
      [ { name := some "Frank Energie"
          per_kwh_rate := some 27
          contract_type := some "variabel"
          welkomsbonus := some 0 }
      , { name := some "Greenchoice"
          per_kwh_rate := some 32
          contract_type := some "vast"
          welkomsbonus := some 75 } ]
    monthly_savings := some 20
    recommendation := some "SWITCH"
    reasoning := some "Frank Energie is goedkoper." }

/-- An analysis reply whose recommendation string contradicts its own
savings figure: `SWITCH` with only €5/month of savings. -/
def conflictCompareRes : CompareRes :=
  { top2_providers := some
      [ { name := some "Tibber"
          per_kwh_rate := some 26
          contract_type := some "dynamisch"
          welkomsbonus := some 0 } ]
    monthly_savings := some 5
    recommendation := some "SWITCH"
    reasoning := some "Klein verschil." }

/-! ### Helper lemmas -/

/-- Unfolding `compareMarketPrices` on an oracle reply that parses. -/
theorem compareMarketPrices_parsed (now : String) (p : UserProfile)
    (live : Except Unit (Option String)) (oracle : ComparePrompt → OracleReply CompareRes)
    (v : CompareRes) (hor : oracle (comparePromptData p live) = .parsed v) :
    compareMarketPrices now p live oracle =
      .ok { checkedAt := now
            userKwhRate := (comparePromptData p live).userRate.getD 0
            userKwhPerMonth := (comparePromptData p live).userKwh.getD 0
            top2 := ((v.top2_providers.getD []).take 2).map mapProvider
            cheapestOverall :=
              (((v.top2_providers.getD []).take 2).map mapProvider).headD
                MarketProvider.emptySentinel
            recommendation := if v.recommendation = some "SWITCH" then .SWITCH else .STAY
            monthlySavings := v.monthly_savings.getD 0
            reasoning := jsOrStr v.reasoning "" } := by
  unfold compareMarketPrices
  rw [hor]
  rfl

/-- An `.ok` result of `compareMarketPrices` can only arise from a reply
that parses (either actual JSON or the empty-object route). -/
theorem compareMarketPrices_ok_cases (now : String) (p : UserProfile)
    (live : Except Unit (Option String)) (oracle : ComparePrompt → OracleReply CompareRes)
    (r : PriceCheckResult) (hok : compareMarketPrices now p live oracle = .ok r) :
    oracle (comparePromptData p live) = .noText ∨
      ∃ v, oracle (comparePromptData p live) = .parsed v := by
  unfold compareMarketPrices at hok
  cases horc : oracle (comparePromptData p live) with
  | noText => exact Or.inl rfl
  | malformed => rw [horc] at hok; exact absurd hok (by simp [jsonParseStep])
  | callError => rw [horc] at hok; exact absurd hok (by simp [jsonParseStep])
  | parsed v => exact Or.inr ⟨v, rfl⟩


/-- A default `PriceCheckResult`, only used to totalise `resultOf`. -/
def fallbackResult : PriceCheckResult :=
  { checkedAt := ""
    userKwhRate := 0
    userKwhPerMonth := 0
    top2 := []
    cheapestOverall := MarketProvider.emptySentinel
    recommendation := .STAY
    monthlySavings := 0
    reasoning := "" }

/-- Extract the result of a successful comparator run. -/
def resultOf (x : Except JsError PriceCheckResult) : PriceCheckResult :=
  match x with
  | .ok r => r
  | .error _ => fallbackResult

/-- A constant analysis oracle always answering `goodCompareRes`. -/
def goodOracle : ComparePrompt → OracleReply CompareRes :=
  fun _ => .parsed goodCompareRes

/-- A constant analysis oracle always answering `conflictCompareRes`. -/
def conflictOracle : ComparePrompt → OracleReply CompareRes :=
  fun _ => .parsed conflictCompareRes

/-- The comparator run on the unverified sample profile against
`conflictCompareRes`. -/
def conflictCheck : Except JsError PriceCheckResult :=
  compareMarketPrices "2026-01-15" sampleProfile (.ok (some "marktdata")) conflictOracle

/-- The row after the user confirms `sampleExtraction`
(`handleVerificationUpdate` writes the `dbUpdate` of `confirm`). -/
def reloadedRow : DbRow := applyDbUpdate sampleRow (confirm sampleExtraction)

/-- The in-memory profile `fetchProfile` yields after that update — the
persisted-and-reloaded shape. -/
def reloadedProfile : UserProfile := mapDbRow reloadedRow

/-- The comparator run on the reloaded profile against `goodCompareRes`. -/
def reloadedCheck : Except JsError PriceCheckResult :=
  compareMarketPrices "2026-02-01" reloadedProfile (.ok (some "livedata")) goodOracle

/-- The user figures of any successful comparator result are the prompt's
figures with `|| 0` applied. -/
theorem compareMarketPrices_user_figures (now : String) (p : UserProfile)
    (live : Except Unit (Option String)) (oracle : ComparePrompt → OracleReply CompareRes)
    (r : PriceCheckResult) (hok : compareMarketPrices now p live oracle = .ok r) :
    r.userKwhRate = (comparePromptData p live).userRate.getD 0 ∧
    r.userKwhPerMonth = (comparePromptData p live).userKwh.getD 0 := by
  unfold compareMarketPrices at hok
  cases horc : oracle (comparePromptData p live) with
  | noText =>
    rw [horc] at hok
    injection hok with h
    subst h
    exact ⟨rfl, rfl⟩
  | malformed =>
    rw [horc] at hok
    simp [jsonParseStep] at hok
  | callError =>
    rw [horc] at hok
    simp [jsonParseStep] at hok
  | parsed v =>
    rw [horc] at hok
    injection hok with h
    subst h
    exact ⟨rfl, rfl⟩

/-- C3 (amended): a non-empty malformed (non-JSON) oracle reply makes all
three operations reject with a propagated parse error; but an empty reply
is replaced by the empty-object literal and parsed successfully, so
`estimateKwhUsage` resolves with an all-absent object, `extractBillData`
resolves with null numerics and the defaults `unknown`/`low`/`[]`, and
`compareMarketPrices` resolves with a fabricated result whose
`monthlySavings` is `0` and whose recommendation is `STAY`. -/
theorem c3_malformed_rejects_empty_defaults (p : UserProfile) (now : String)
    (live : Except Unit (Option String)) :
    estimateKwhUsage p .malformed = .error .parseError ∧
    extractBillData .malformed = .error .parseError ∧
    compareMarketPrices now p live (fun _ => .malformed) = .error .parseError ∧
    estimateKwhUsage p .noText = .ok EstimateRes.empty ∧
    extractBillData .noText =
      .ok { annualKwh := none, monthlyKwh := none, annualCostEur := none,
            monthlyCostEur := none, perKwhRate := none, contractType := "unknown",
            providerName := none, confidence := "low", warnings := [] } ∧
    (compareMarketPrices now p live (fun _ => .noText)).map PriceCheckResult.monthlySavings
      = .ok 0 ∧
    (compareMarketPrices now p live (fun _ => .noText)).map PriceCheckResult.recommendation
      = .ok .STAY :=
  ⟨rfl, rfl, rfl, rfl, rfl, rfl, rfl⟩

/-- C3 counterexample: a concrete empty oracle reply is not propagated as an
error — the estimator resolves successfully with an empty object and the
comparator resolves successfully with a fabricated `monthlySavings = 0`. -/
theorem c3_empty_reply_succeeds :
    estimateKwhUsage sampleProfile .noText = .ok EstimateRes.empty ∧
    (estimateKwhUsage sampleProfile OracleReply.noText).isOk = true ∧
    (compareMarketPrices "2026-01-15" sampleProfile (.ok (some "marktdata"))
        (fun _ => .noText)).map PriceCheckResult.monthlySavings = .ok 0 ∧
    (compareMarketPrices "2026-01-15" sampleProfile (.ok (some "marktdata"))
        (fun _ => .noText)).isOk = true :=
  ⟨rfl, rfl, rfl, rfl⟩

/-- C4: the switching-cost rule injected into the comparator's prompt is the
applies-rule exactly for a `fixed` current contract, and the
no-switching-cost rule exactly otherwise; the selection is a local function
of the profile, not an oracle judgment. -/
theorem c4_switching_cost_iff_fixed (p : UserProfile) (live : Except Unit (Option String)) :
    ((comparePromptData p live).switchingCostRule = fixedSwitchingCostRule ↔
      p.currentContractType = ContractType.fixed) ∧
    ((comparePromptData p live).switchingCostRule = noSwitchingCostRule ↔
      p.currentContractType ≠ ContractType.fixed) := by
  have hne : fixedSwitchingCostRule ≠ noSwitchingCostRule := by decide
  cases h : p.currentContractType <;>
    simp [comparePromptData, h, hne, Ne.symm hne]

/-- C2 (amended): the comparator's recommendation only normalises the oracle
string — it is `SWITCH` exactly when the parsed `recommendation` field is
the string `SWITCH` — while `monthlySavings` is copied (with `|| 0`)
independently; the €10 rule is not enforced locally. -/
theorem c2_recommendation_mirrors_oracle_string (now : String) (p : UserProfile)
    (live : Except Unit (Option String)) (oracle : ComparePrompt → OracleReply CompareRes)
    (v : CompareRes) (r : PriceCheckResult)
    (hor : oracle (comparePromptData p live) = .parsed v)
    (hok : compareMarketPrices now p live oracle = .ok r) :
    (r.recommendation = Rec.SWITCH ↔ v.recommendation = some "SWITCH") ∧
    r.monthlySavings = v.monthly_savings.getD 0 := by
  rw [compareMarketPrices_parsed now p live oracle v hor] at hok
  injection hok with h
  subst h
  constructor
  · by_cases hrec : v.recommendation = some "SWITCH" <;> simp [hrec]
  · rfl

/-- C2 witness: the amended statement applied to the conflicting reply. -/
theorem c2_recommendation_mirrors_oracle_string_witness :
    ((resultOf conflictCheck).recommendation = Rec.SWITCH ↔
      conflictCompareRes.recommendation = some "SWITCH") ∧
    (resultOf conflictCheck).monthlySavings = conflictCompareRes.monthly_savings.getD 0 :=
  c2_recommendation_mirrors_oracle_string "2026-01-15" sampleProfile (.ok (some "marktdata"))
    conflictOracle conflictCompareRes (resultOf conflictCheck) rfl rfl

/-- C2 counterexample: with a parsed reply whose savings are €5 but whose
recommendation string is `SWITCH`, the comparator returns `SWITCH` with
`monthlySavings = 5`, so `recommendation = SWITCH ↔ monthlySavings > 10`
fails (the local-threshold claim is false on the code). -/
theorem c2_switch_below_threshold :
    conflictCheck.map PriceCheckResult.recommendation = .ok Rec.SWITCH ∧
    conflictCheck.map PriceCheckResult.monthlySavings = .ok 5 ∧
    ¬ ((5 : ℚ) > 10) :=
  ⟨rfl, rfl, by decide⟩

/-- C6 (amended): when the live grounded lookup throws, the comparator's
market context is the static reference table and the run still yields a
`PriceCheckResult` of the same shape; but no explicit indicator records the
path — the failure run is extensionally identical to a live run returning
the very same text. -/
theorem c6_fallback_static_table_same_shape (now : String) (p : UserProfile)
    (oracle : ComparePrompt → OracleReply CompareRes) :
    (comparePromptData p (.error ())).marketContext = fallbackMarketContext ∧
    compareMarketPrices now p (.error ()) oracle
      = compareMarketPrices now p (.ok (some fallbackMarketContext)) oracle ∧
    ∀ v : CompareRes,
      (compareMarketPrices now p (.error ()) (fun _ => .parsed v)).isOk = true :=
  ⟨rfl, rfl, fun _ => rfl⟩

/-- C6 counterexample: a concrete failed lookup and a concrete successful
live lookup produce identical prompts and identical results — no test can
assert from the comparator's behaviour which path was taken. -/
theorem c6_paths_indistinguishable :
    compareMarketPrices "2026-01-15" sampleProfile (.ok (some fallbackMarketContext)) goodOracle
      = compareMarketPrices "2026-01-15" sampleProfile (.error ()) goodOracle ∧
    comparePromptData sampleProfile (.ok (some fallbackMarketContext))
      = comparePromptData sampleProfile (.error ()) ∧
    compareMarketPrices "2026-01-15" sampleProfile (.ok (some "heel andere live tekst")) goodOracle
      = compareMarketPrices "2026-01-15" sampleProfile (.error ()) goodOracle :=
  ⟨rfl, rfl, rfl⟩

/-- C1 (amended): whenever `isVerified` is set on the in-memory profile, the
comparator draws the user figures from the `verified*` fields (never from
the unverified estimate) — but `fetchProfile`'s mapping leaves every
`verified*` field absent, so a persisted-and-reloaded profile no longer
carries the verified figures for the comparator to use. -/
theorem c1_comparator_uses_verified_fields (now : String) (p : UserProfile)
    (live : Except Unit (Option String)) (oracle : ComparePrompt → OracleReply CompareRes)
    (r : PriceCheckResult) (hv : p.isVerified = true)
    (hok : compareMarketPrices now p live oracle = .ok r) :
    (comparePromptData p live).userRate = p.verifiedPerKwhRate ∧
    (comparePromptData p live).userKwh = p.verifiedKwhPerMonth ∧
    r.userKwhRate = p.verifiedPerKwhRate.getD 0 ∧
    r.userKwhPerMonth = p.verifiedKwhPerMonth.getD 0 ∧
    ∀ row : DbRow, (mapDbRow row).verifiedPerKwhRate = none ∧
      (mapDbRow row).verifiedKwhPerMonth = none := by
  have hfig := compareMarketPrices_user_figures now p live oracle r hok
  refine ⟨by simp [comparePromptData, hv], by simp [comparePromptData, hv], ?_, ?_, ?_⟩
  · rw [hfig.1]; simp [comparePromptData, hv]
  · rw [hfig.2]; simp [comparePromptData, hv]
  · intro row; exact ⟨rfl, rfl⟩

/-- C1 witness: the amended statement applied to a verified in-memory
profile. -/
theorem c1_comparator_uses_verified_fields_witness :
    (comparePromptData
        { sampleProfile with
          isVerified := true
          verifiedPerKwhRate := some 40
          verifiedKwhPerMonth := some 250 }
        (.ok (some "marktdata"))).userRate = some 40 ∧
    (resultOf (compareMarketPrices "2026-01-15"
        { sampleProfile with
          isVerified := true
          verifiedPerKwhRate := some 40
          verifiedKwhPerMonth := some 250 }
        (.ok (some "marktdata")) goodOracle)).userKwhRate = 40 := by
  have h := c1_comparator_uses_verified_fields "2026-01-15"
    { sampleProfile with
      isVerified := true
      verifiedPerKwhRate := some 40
      verifiedKwhPerMonth := some 250 }
    (.ok (some "marktdata")) goodOracle
    (resultOf (compareMarketPrices "2026-01-15"
      { sampleProfile with
        isVerified := true
        verifiedPerKwhRate := some 40
        verifiedKwhPerMonth := some 250 }
      (.ok (some "marktdata")) goodOracle)) rfl rfl
  refine ⟨h.1, ?_⟩
  rw [h.2.2.1]
  rfl


/-- C1 counterexample: the user confirms a bill with verified rate 40 and
250 kWh/month; after the update is persisted and the profile reloaded via
`fetchProfile`, the next comparator run reports `userKwhRate = 0` and
`userKwhPerMonth = 0` — neither the verified figures (40, 250) nor the
estimate — so verified figures are not used after a reload. -/
theorem c1_reload_drops_verified_figures :
    (confirm sampleExtraction).isVerified = some true ∧
    (confirm sampleExtraction).verifiedPerKwhRate = some 40 ∧
    (confirm sampleExtraction).verifiedKwhPerMonth = some 250 ∧
    reloadedProfile.isVerified = true ∧
    reloadedCheck.map PriceCheckResult.userKwhRate = .ok 0 ∧
    reloadedCheck.map PriceCheckResult.userKwhPerMonth = .ok 0 ∧
    (40 : ℚ) ≠ 0 ∧ (250 : ℚ) ≠ 0 :=
  ⟨rfl, rfl, rfl, rfl, rfl, rfl, by decide, by decide⟩

/-- C5: for any profile that is flagged verified but carries no verified
figures — exactly the shape `fetchProfile` produces for every row, as the
last conjunct states — a successful comparator run reports
`userKwhRate = 0` and `userKwhPerMonth = 0` and does not fall back to the
estimated figures. -/
theorem c5_reloaded_verified_profile_uses_zero (now : String) (p : UserProfile)
    (live : Except Unit (Option String)) (oracle : ComparePrompt → OracleReply CompareRes)
    (r : PriceCheckResult) (hv : p.isVerified = true)
    (h1 : p.verifiedPerKwhRate = none) (h2 : p.verifiedKwhPerMonth = none)
    (hok : compareMarketPrices now p live oracle = .ok r) :
    r.userKwhRate = 0 ∧ r.userKwhPerMonth = 0 ∧
    ∀ row : DbRow, (mapDbRow row).verifiedPerKwhRate = none ∧
      (mapDbRow row).verifiedKwhPerMonth = none := by
  have hfig := compareMarketPrices_user_figures now p live oracle r hok
  refine ⟨?_, ?_, fun row => ⟨rfl, rfl⟩⟩
  · rw [hfig.1]; simp [comparePromptData, hv, h1]
  · rw [hfig.2]; simp [comparePromptData, hv, h2]

/-- C5 witness: the statement applied to the persisted-and-reloaded verified
profile. -/
theorem c5_reloaded_verified_profile_uses_zero_witness :
    (resultOf reloadedCheck).userKwhRate = 0 ∧
    (resultOf reloadedCheck).userKwhPerMonth = 0 ∧
    (mapDbRow sampleRow).verifiedPerKwhRate = none := by
  have h := c5_reloaded_verified_profile_uses_zero "2026-02-01" reloadedProfile
    (.ok (some "livedata")) goodOracle (resultOf reloadedCheck) rfl rfl rfl rfl
  exact ⟨h.1, h.2.1, (h.2.2 sampleRow).1⟩

/-- C7: a successful comparator run keeps however many offers the oracle
returned (capped at two); `cheapestOverall` is the mapped first offer when
at least one is present, and the empty sentinel when none are; the sentinel
case is distinguishable from any real offer because only the sentinel lacks
the `welkomsbonus` field (and `top2` is empty exactly then). -/
theorem c7_top2_and_sentinel (now : String) (p : UserProfile)
    (live : Except Unit (Option String)) (oracle : ComparePrompt → OracleReply CompareRes)
    (v : CompareRes) (r : PriceCheckResult)
    (hor : oracle (comparePromptData p live) = .parsed v)
    (hok : compareMarketPrices now p live oracle = .ok r) :
    r.top2 = ((v.top2_providers.getD []).take 2).map mapProvider ∧
    (∀ q l, v.top2_providers = some (q :: l) → r.cheapestOverall = mapProvider q) ∧
    (v.top2_providers.getD [] = [] →
      r.cheapestOverall = MarketProvider.emptySentinel ∧ r.top2 = []) ∧
    (r.cheapestOverall.welkomsbonus = none ↔ v.top2_providers.getD [] = []) := by
  rw [compareMarketPrices_parsed now p live oracle v hor] at hok
  injection hok with h
  subst h
  refine ⟨rfl, ?_, ?_, ?_⟩
  · intro q l hql
    simp [hql]
  · intro hnil
    rw [hnil]
    exact ⟨rfl, rfl⟩
  · cases hl : v.top2_providers.getD [] with
    | nil => simp [hl, MarketProvider.emptySentinel]
    | cons q l => simp [hl, mapProvider]

/-- C7 witness: the statement applied to the two-offer reply
`goodCompareRes`. -/
theorem c7_top2_and_sentinel_witness :
    (resultOf (compareMarketPrices "2026-01-15" sampleProfile (.ok (some "marktdata"))
        goodOracle)).top2
      = ((goodCompareRes.top2_providers.getD []).take 2).map mapProvider ∧
    ((resultOf (compareMarketPrices "2026-01-15" sampleProfile (.ok (some "marktdata"))
        goodOracle)).cheapestOverall.welkomsbonus = none ↔
      goodCompareRes.top2_providers.getD [] = []) := by
  have h := c7_top2_and_sentinel "2026-01-15" sampleProfile (.ok (some "marktdata"))
    goodOracle goodCompareRes
    (resultOf (compareMarketPrices "2026-01-15" sampleProfile (.ok (some "marktdata"))
      goodOracle)) rfl rfl
  exact ⟨h.1, h.2.2.2⟩

/-- Inversion of the JS truthiness check on an optional string. -/
theorem jsStrTruthy_some (a : Option String) (s : String)
    (h : jsStrTruthy a = some s) : a = some s ∧ s ≠ "" := by
  cases a with
  | none => simp [jsStrTruthy] at h
  | some t =>
    by_cases ht : t = ""
    · simp [jsStrTruthy, ht] at h
    · simp [jsStrTruthy, ht] at h
      subst h
      exact ⟨rfl, ht⟩

/-- The webhook handler's database effect is premium-setting for the target
user when all gates pass, and the identity otherwise. -/
theorem webhookHandler_db (req : WebhookReq) (ev : Option StripeEvent) (ok : Bool)
    (db : ProfilesDb) :
    (webhookHandler req ev ok db).2 =
      match webhookPremiumTarget req ev ok with
      | some uid => setPremium db uid
      | none => db := by
  unfold webhookHandler webhookPremiumTarget
  by_cases h1 : req.method ≠ "POST"
  · simp [h1]
  · simp only [h1, if_false]
    cases hs : jsStrTruthy req.signature with
    | none => rfl
    | some s =>
      cases ev with
      | none => rfl
      | some event =>
        by_cases h2 : event.type = "checkout.session.completed"
        · simp only [h2, if_true]
          cases hu : jsStrTruthy event.metadata_supabase_user_id with
          | none => rfl
          | some uid => cases ok <;> rfl
        · simp [h2]

/-- Any step preserves a verified flag that is already set: the only write
to `is_verified` comes from `confirm`, whose update is `some true`. -/
theorem stepRow_preserves_verified (uid : String) (row : DbRow) (op : CoreOp)
    (h : row.is_verified = true) : (stepRow uid row op).is_verified = true := by
  cases op with
  | billVerification er conf =>
    cases er with
    | ok d =>
      cases conf with
      | true => simp [stepRow, applyDbUpdate, confirm]
      | false => simpa [stepRow] using h
    | error e => simpa [stepRow] using h
  | priceCheckComplete r => simpa [stepRow] using h
  | stripeWebhook req ev ok =>
    by_cases ht : webhookPremiumTarget req ev ok = some uid <;>
      simp [stepRow, ht, h]

/-- C8: across the reachable operations, `is_verified` becomes `true` only
through the user-confirmation step over a successful extraction; a failed
extraction leaves the row untouched, and extraction without the user's
confirmation changes nothing either. -/
theorem c8_verified_only_by_confirm (uid : String) (row : DbRow) :
    (∀ op : CoreOp, (stepRow uid row op).is_verified = true →
      row.is_verified = true ∨
        ∃ d, op = CoreOp.billVerification (Except.ok d) true) ∧
    (∀ e conf, stepRow uid row (.billVerification (Except.error e) conf) = row) ∧
    (∀ er, stepRow uid row (.billVerification er false) = row) ∧
    (∀ d, (stepRow uid row (.billVerification (Except.ok d) true)).is_verified = true) := by
  refine ⟨?_, ?_, ?_, ?_⟩
  · intro op hop
    cases op with
    | billVerification er conf =>
      cases er with
      | ok d =>
        cases conf with
        | true => exact Or.inr ⟨d, rfl⟩
        | false => exact Or.inl (by simpa [stepRow] using hop)
      | error e => exact Or.inl (by simpa [stepRow] using hop)
    | priceCheckComplete r => exact Or.inl (by simpa [stepRow] using hop)
    | stripeWebhook req ev ok =>
      refine Or.inl ?_
      by_cases ht : webhookPremiumTarget req ev ok = some uid
      · simpa [stepRow, ht] using hop
      · simpa [stepRow, ht] using hop
  · intro e conf
    cases conf <;> rfl
  · intro er
    cases er <;> rfl
  · intro d
    simp [stepRow, applyDbUpdate, confirm]

/-- C8 witness: the confirm step sets the flag on the sample row, and a
failed extraction leaves the row unchanged. -/
theorem c8_verified_only_by_confirm_witness :
    (stepRow "user-1" sampleRow
        (.billVerification (Except.ok sampleExtraction) true)).is_verified = true ∧
    stepRow "user-1" sampleRow (.billVerification (Except.error .parseError) true)
      = sampleRow ∧
    (sampleRow.is_verified = true ∨
      ∃ d, CoreOp.billVerification (Except.ok sampleExtraction) true
            = CoreOp.billVerification (Except.ok d) true) := by
  have h := c8_verified_only_by_confirm "user-1" sampleRow
  exact ⟨h.2.2.2 sampleExtraction, h.2.1 .parseError true,
    h.1 (CoreOp.billVerification (Except.ok sampleExtraction) true) (h.2.2.2 sampleExtraction)⟩

/-- C9: the verified flag is monotone across every reachable sequence of
operations — once `is_verified` is `true`, it stays `true`. -/
theorem c9_verified_monotone (uid : String) (row : DbRow) (ops : List CoreOp)
    (h : row.is_verified = true) :
    (ops.foldl (stepRow uid) row).is_verified = true := by
  induction ops generalizing row with
  | nil => exact h
  | cons op rest ih => exact ih (stepRow uid row op) (stepRow_preserves_verified uid row op h)

/-- C9 witness: a verified row stays verified across a concrete sequence of
all three operation kinds. -/
theorem c9_verified_monotone_witness :
    (([CoreOp.priceCheckComplete fallbackResult,
       CoreOp.billVerification (Except.error .parseError) false,
       CoreOp.stripeWebhook ⟨"POST", some "sig"⟩
         (some ⟨"checkout.session.completed", some "user-1"⟩) true,
       CoreOp.billVerification (Except.ok sampleExtraction) true].foldl
        (stepRow "user-1") { sampleRow with is_verified := true }).is_verified = true) :=
  c9_verified_monotone "user-1" { sampleRow with is_verified := true } _ rfl

/-- C10: the webhook handler changes the subscription table only for a POST
request bearing a non-empty signature header that verifies to a
`checkout.session.completed` event carrying a non-empty user id, with the
database write succeeding — and then the change is exactly setting that
user's status to premium.  Contrapositively, every other request leaves the
table unchanged. -/
theorem c10_premium_only_by_valid_webhook (req : WebhookReq) (ev : Option StripeEvent)
    (ok : Bool) (db : ProfilesDb) (h : (webhookHandler req ev ok db).2 ≠ db) :
    req.method = "POST" ∧
    (∃ s, req.signature = some s ∧ s ≠ "") ∧
    ∃ event, ev = some event ∧ event.type = "checkout.session.completed" ∧
      ∃ uid, event.metadata_supabase_user_id = some uid ∧ uid ≠ "" ∧ ok = true ∧
        (webhookHandler req ev ok db).2 = setPremium db uid := by
  have hdb := webhookHandler_db req ev ok db
  cases ht : webhookPremiumTarget req ev ok with
  | none => rw [ht] at hdb; exact absurd hdb h
  | some uid =>
    rw [ht] at hdb
    unfold webhookPremiumTarget at ht
    by_cases h1 : req.method ≠ "POST"
    · simp [h1] at ht
    · simp only [h1, if_false] at ht
      cases hs : jsStrTruthy req.signature with
      | none => rw [hs] at ht; exact absurd ht (by simp)
      | some s =>
        rw [hs] at ht
        obtain ⟨hsig, hsne⟩ := jsStrTruthy_some req.signature s hs
        cases ev with
        | none => exact absurd ht (by simp)
        | some event =>
          by_cases h2 : event.type = "checkout.session.completed"
          · simp only [h2, if_true] at ht
            cases hu : jsStrTruthy event.metadata_supabase_user_id with
            | none => rw [hu] at ht; exact absurd ht (by simp)
            | some uid2 =>
              rw [hu] at ht
              obtain ⟨huid, hune⟩ := jsStrTruthy_some event.metadata_supabase_user_id uid2 hu
              cases ok with
              | false => exact absurd ht (by simp)
              | true =>
                simp only [if_true] at ht
                injection ht with htu
                subst htu
                exact ⟨not_not.mp (by simpa using h1), ⟨s, hsig, hsne⟩,
                  event, rfl, h2, uid2, huid, hune, rfl, hdb⟩
          · simp [h2] at ht

/-- C10 witness: a signature-verified completed-checkout POST for `user-1`
flips that user's status to premium. -/
theorem c10_premium_only_by_valid_webhook_witness :
    (webhookHandler ⟨"POST", some "sig-header"⟩
        (some ⟨"checkout.session.completed", some "user-1"⟩) true
        [("user-1", SubscriptionStatus.free)]).2
      = setPremium [("user-1", SubscriptionStatus.free)] "user-1" ∧
    "POST" = "POST" := by
  have h := c10_premium_only_by_valid_webhook ⟨"POST", some "sig-header"⟩
    (some ⟨"checkout.session.completed", some "user-1"⟩) true
    [("user-1", SubscriptionStatus.free)] (by decide)
  obtain ⟨hm, -, event, hev, -, uid, huid, -, -, heq⟩ := h
  injection hev with hev2
  subst hev2
  injection huid with huid2
  subst huid2
  exact ⟨heq, rfl⟩
